import Mathlib

/-!
Verification of the variant stability screening engine of the
in-silico cutin synthase stabilization repository.

The Python sources are shallowly embedded:

* `src/mutation_screening/mutation_screener.py`
  - `MutationScreener.generate_mutation_library` → `generate_mutation_library`
  - `ThermostabilityPredictor.rank_mutations` → `rank_mutations`
    (the per-call results of `predict_ddg` — `np.random.uniform` draws —
    are modelled by a score oracle indexed by call number)
* `src/md_simulation/setup_md.py`
  - `MDSimulationSetup._default_params` → `default_params`
  - `MDSimulationSetup._write_minimization_mdp` → `write_minimization_mdp`
  - `MDSimulationSetup._write_nvt_mdp` → `write_nvt_mdp`
  - `MDSimulationSetup._write_npt_mdp` → `write_npt_mdp`
  - `MDSimulationSetup._write_production_mdp` → `write_production_mdp`
* `src/analysis/analyze_results.py`
  - `ProteinDescriptorCalculator._calculate_aliphatic_index`
    → `calculate_aliphatic_index`

Python floats are modelled by `ℚ`, Python ints by `ℤ`/`ℕ`, Python
exceptions by `Except`.
-/

/-! ## Mutation library generation
`MutationScreener.generate_mutation_library(positions, amino_acids=None)`:
if `amino_acids is None` it is replaced by the canonical 20-letter list,
then a nested loop appends the string `f"{pos}{aa}"` for each position
(outer) and each amino acid (inner). -/

/-- The default amino-acid list hardcoded in
`generate_mutation_library` (source lines 130–131). -/
def default_amino_acids : List Char :=
  ['A', 'C', 'D', 'E', 'F', 'G', 'H', 'I', 'K', 'L',
   'M', 'N', 'P', 'Q', 'R', 'S', 'T', 'V', 'W', 'Y']

/-- The string `f"{pos}{aa}"` built in the inner loop of
`generate_mutation_library`. -/
def mkMutation (pos : ℕ) (aa : Char) : String :=
  toString pos ++ String.singleton aa

/-- Embedding of `MutationScreener.generate_mutation_library`.
`none` for `amino_acids` models the Python default `None`. -/
def generate_mutation_library (positions : List ℕ)
    (amino_acids : Option (List Char)) : List String :=
  let aas := amino_acids.getD default_amino_acids
  positions.flatMap fun pos => aas.map fun aa => mkMutation pos aa

theorem length_generate_mutation_library (positions : List ℕ)
    (amino_acids : Option (List Char)) :
    (generate_mutation_library positions amino_acids).length =
      positions.length * (amino_acids.getD default_amino_acids).length := by
  unfold generate_mutation_library
  induction positions with
  | nil => simp
  | cons p ps ih => simp [ih, Nat.succ_mul, Nat.add_comm]

/-- C1: for every non-empty position list `P` and every alphabet option `A`,
`generate_mutation_library P A` has exactly `|P| × |alphabet|` members, every
member is `mkMutation p a` for some `p ∈ P` and `a` in the alphabet, no
`(position, target)` pair is skipped, and an omitted alphabet (`none`) is the
canonical 20-letter list. -/
theorem generate_mutation_library_complete (positions : List ℕ)
    (amino_acids : Option (List Char)) (_hP : positions ≠ []) :
    (generate_mutation_library positions amino_acids).length =
      positions.length * (amino_acids.getD default_amino_acids).length ∧
    (∀ m ∈ generate_mutation_library positions amino_acids,
      ∃ p ∈ positions, ∃ a ∈ amino_acids.getD default_amino_acids,
        m = mkMutation p a) ∧
    (∀ p ∈ positions, ∀ a ∈ amino_acids.getD default_amino_acids,
      mkMutation p a ∈ generate_mutation_library positions amino_acids) ∧
    (amino_acids = none →
      amino_acids.getD default_amino_acids = default_amino_acids) := by
  refine ⟨length_generate_mutation_library positions amino_acids, ?_, ?_, ?_⟩
  · intro m hm
    simp only [generate_mutation_library, List.mem_flatMap, List.mem_map] at hm
    obtain ⟨p, hp, a, ha, rfl⟩ := hm
    exact ⟨p, hp, a, ha, rfl⟩
  · intro p hp a ha
    simp only [generate_mutation_library, List.mem_flatMap, List.mem_map]
    exact ⟨p, hp, a, ha, rfl⟩
  · intro h
    subst h
    rfl

/-- Concrete instance of `generate_mutation_library_complete` at
positions `[3]` and the default alphabet. -/
theorem generate_mutation_library_complete_witness :
    ([3] : List ℕ) ≠ [] ∧
    ((generate_mutation_library [3] none).length =
      ([3] : List ℕ).length * ((none : Option (List Char)).getD default_amino_acids).length ∧
    (∀ m ∈ generate_mutation_library [3] none,
      ∃ p ∈ ([3] : List ℕ), ∃ a ∈ (none : Option (List Char)).getD default_amino_acids,
        m = mkMutation p a) ∧
    (∀ p ∈ ([3] : List ℕ), ∀ a ∈ (none : Option (List Char)).getD default_amino_acids,
      mkMutation p a ∈ generate_mutation_library [3] none) ∧
    ((none : Option (List Char)) = none →
      (none : Option (List Char)).getD default_amino_acids = default_amino_acids)) :=
  ⟨by decide, generate_mutation_library_complete [3] none (by decide)⟩

/-- C7 counterexample: on the empty position list
`generate_mutation_library` raises nothing and returns the empty library. -/
theorem generate_mutation_library_empty_positions :
    generate_mutation_library [] none = [] := rfl

/-- C7 amended: `generate_mutation_library` never fails; with an empty
position list it returns the empty library for every alphabet option
(the source has no `EmptyPositionListError` and no emptiness check). -/
theorem generate_mutation_library_nil (amino_acids : Option (List Char)) :
    generate_mutation_library [] amino_acids = [] := rfl

/-! ## Ranking mutations
`ThermostabilityPredictor.rank_mutations(mutations)` loops over the input,
calls `self.predict_ddg(mut)` once per element (a fresh
`np.random.uniform(-2.0, 2.0)` draw), builds the record
`{'mutation': mut, 'ddg': ddg, 'stabilizing': ddg < 0}`, and finally sorts
the record list with Python's stable `list.sort(key=lambda x: x['ddg'])`.
The successive `predict_ddg` return values are modelled by a score oracle
`score : ℕ → ℚ` indexed by loop iteration; Python's stable ascending sort
is modelled by `List.mergeSort`, which is stable and sorts ascending. -/

/-- The record `{'mutation': ..., 'ddg': ..., 'stabilizing': ...}` built by
`rank_mutations`. -/
structure RankedMutation where
  mutation : String
  ddg : ℚ
  stabilizing : Bool
deriving DecidableEq, Repr

/-- The sort key comparison of `ranked.sort(key=lambda x: x['ddg'])`. -/
def leDdg (a b : RankedMutation) : Bool := a.ddg ≤ b.ddg

/-- The record list built by the scoring loop of `rank_mutations`, before
sorting: iteration `i` scores `mutations[i]` with the oracle value `score i`. -/
def scored_mutations (score : ℕ → ℚ) (mutations : List String) :
    List RankedMutation :=
  mutations.enum.map fun im =>
    { mutation := im.2, ddg := score im.1, stabilizing := decide (score im.1 < 0) }

/-- Embedding of `ThermostabilityPredictor.rank_mutations`. -/
def rank_mutations (score : ℕ → ℚ) (mutations : List String) :
    List RankedMutation :=
  (scored_mutations score mutations).mergeSort leDdg

/-- Comparison on generation-indexed records: strictly smaller ddg, or equal
ddg with the earlier generation index first. Used to state stability. -/
def leDdgIdx (a b : ℕ × RankedMutation) : Bool :=
  a.2.ddg < b.2.ddg || (a.2.ddg = b.2.ddg && a.1 ≤ b.1)

/-- `rank_mutations` with each scored record tagged by its generation index,
sorted by ddg with ties broken by generation index. -/
def rank_mutations_indexed (score : ℕ → ℚ) (mutations : List String) :
    List (ℕ × RankedMutation) :=
  (scored_mutations score mutations).enum.mergeSort leDdgIdx

theorem leDdgIdx_eq_enumLE : leDdgIdx = List.enumLE leDdg := by
  funext a b
  simp only [leDdgIdx, List.enumLE, leDdg]
  rcases lt_trichotomy a.2.ddg b.2.ddg with h | h | h
  · simp [h, le_of_lt h, not_le.mpr h]
  · simp [h]
  · simp [not_le.mpr h, not_lt.mpr (le_of_lt h), ne_of_gt h]

theorem leDdgIdx_trans (a b c : ℕ × RankedMutation)
    (hab : leDdgIdx a b) (hbc : leDdgIdx b c) : leDdgIdx a c := by
  simp only [leDdgIdx, Bool.or_eq_true, Bool.and_eq_true, decide_eq_true_eq] at *
  rcases hab with h1 | ⟨h1, h1'⟩ <;> rcases hbc with h2 | ⟨h2, h2'⟩
  · exact Or.inl (h1.trans h2)
  · exact Or.inl (h2 ▸ h1)
  · exact Or.inl (h1 ▸ h2)
  · exact Or.inr ⟨h1.trans h2, le_trans h1' h2'⟩

theorem leDdgIdx_total (a b : ℕ × RankedMutation) :
    leDdgIdx a b || leDdgIdx b a := by
  simp only [leDdgIdx, Bool.or_eq_true, Bool.and_eq_true, decide_eq_true_eq]
  rcases lt_trichotomy a.2.ddg b.2.ddg with h | h | h
  · exact Or.inl (Or.inl h)
  · rcases Nat.le_total a.1 b.1 with h' | h'
    · exact Or.inl (Or.inr ⟨h, h'⟩)
    · exact Or.inr (Or.inr ⟨h.symm, h'⟩)
  · exact Or.inr (Or.inl h)

/-- C2: the list returned by `rank_mutations` is the index-tagged list sorted
ascending by ddg with ties broken by generation order (projected back), and in
that tagged sort any two entries are either strictly increasing in ddg or have
equal ddg with strictly increasing generation index — so equal-score entries
keep their input order and the whole list is sorted ascending by ddg. -/
theorem rank_mutations_sorted_stable (score : ℕ → ℚ) (mutations : List String) :
    (rank_mutations_indexed score mutations).map Prod.snd =
      rank_mutations score mutations ∧
    (rank_mutations_indexed score mutations).Pairwise
      (fun a b => a.2.ddg < b.2.ddg ∨ (a.2.ddg = b.2.ddg ∧ a.1 < b.1)) := by
  constructor
  · rw [rank_mutations_indexed, rank_mutations, leDdgIdx_eq_enumLE]
    exact List.mergeSort_enum
  · have hsorted : (rank_mutations_indexed score mutations).Pairwise
        (fun a b => leDdgIdx a b) :=
      List.sorted_mergeSort leDdgIdx_trans leDdgIdx_total _
    have hnodup : (rank_mutations_indexed score mutations).Pairwise
        (fun a b => a.1 ≠ b.1) := by
      have hperm : List.Perm (rank_mutations_indexed score mutations)
          ((scored_mutations score mutations).enum) :=
        List.mergeSort_perm _ _
      have h1 : (((scored_mutations score mutations).enum).map Prod.fst).Nodup := by
        rw [List.enum_map_fst]
        exact List.nodup_range _
      exact List.pairwise_map.mp ((hperm.map Prod.fst).symm.nodup h1)
    refine (hsorted.and hnodup).imp ?_
    rintro a b ⟨hle, hne⟩
    simp only [leDdgIdx, Bool.or_eq_true, Bool.and_eq_true, decide_eq_true_eq] at hle
    rcases hle with h | ⟨h, h'⟩
    · exact Or.inl h
    · exact Or.inr ⟨h, lt_of_le_of_ne h' hne⟩

/-- C10: `rank_mutations` neither drops nor duplicates a mutation: the output
has the same length as the input and the multiset of output mutation strings
is a permutation of the input list, for every score assignment. -/
theorem rank_mutations_perm (score : ℕ → ℚ) (mutations : List String) :
    (rank_mutations score mutations).length = mutations.length ∧
    List.Perm ((rank_mutations score mutations).map RankedMutation.mutation)
      mutations := by
  have hperm : List.Perm (rank_mutations score mutations)
      (scored_mutations score mutations) :=
    List.mergeSort_perm _ _
  constructor
  · rw [hperm.length_eq, scored_mutations, List.length_map, List.enum_length]
  · have h2 : (scored_mutations score mutations).map RankedMutation.mutation
        = mutations := by
      rw [scored_mutations, List.map_map]
      exact List.enum_map_snd mutations
    have h3 := hperm.map RankedMutation.mutation
    rwa [h2] at h3

/-! ## Ranking with a fallible scoring capability
The body of the `for mut in mutations` loop in `rank_mutations` calls the
scorer with no `try`/`except` around it, so an exception raised for one
mutation propagates out of `rank_mutations` and aborts the whole ranking.
The scorer is modelled as `ℕ → Except ScoringError ℚ` (per-call result,
indexed by loop iteration) and exception propagation by the `Except` bind. -/

/-- The error an injected scoring capability may raise (spec §4.3/§6);
no such class and no handler exists anywhere in the source. -/
inductive ScoringError where
  | unavailable
deriving DecidableEq, Repr

/-- The scoring loop of `rank_mutations` with a fallible scorer: iteration
index `i` counts calls from the start of the library; the monadic bind is
Python's exception propagation (the loop body has no handler). -/
def score_all (score : ℕ → Except ScoringError ℚ) :
    ℕ → List String → Except ScoringError (List RankedMutation)
  | _, [] => Except.ok []
  | i, m :: ms => do
    let d ← score i
    let rest ← score_all score (i + 1) ms
    pure ({ mutation := m, ddg := d, stabilizing := decide (d < 0) } :: rest)

/-- Embedding of `rank_mutations` when the scoring call may raise: the loop
runs first, then the sort; an uncaught exception aborts before sorting. -/
def rank_mutations_exc (score : ℕ → Except ScoringError ℚ)
    (mutations : List String) : Except ScoringError (List RankedMutation) :=
  (score_all score 0 mutations).map fun l => l.mergeSort leDdg

theorem score_all_of_error (score : ℕ → Except ScoringError ℚ) :
    ∀ (ms : List String) (k j : ℕ) (e : ScoringError), j < ms.length →
      score (k + j) = Except.error e →
      ∀ l, score_all score k ms ≠ Except.ok l := by
  intro ms
  induction ms with
  | nil => intro k j e hj _ _; simp at hj
  | cons m ms ih =>
    intro k j e hj he l
    cases j with
    | zero =>
      simp only [Nat.add_zero] at he
      simp only [score_all, he]
      exact fun hl => Except.noConfusion hl
    | succ j' =>
      cases h : score k with
      | error e' =>
        simp only [score_all, h]
        exact fun hl => Except.noConfusion hl
      | ok d =>
        cases h2 : score_all score (k + 1) ms with
        | error e' =>
          simp only [score_all, h, h2]
          exact fun hl => Except.noConfusion hl
        | ok rest =>
          have : score (k + 1 + j') = Except.error e := by
            rw [Nat.add_right_comm]
            exact he
          exact absurd h2
            (ih (k + 1) j' e (Nat.lt_of_succ_lt_succ hj) this rest)

/-- C6 counterexample: a scorer failing on the first of two mutations makes
`rank_mutations` abort with the exception instead of returning a one-element
ranked list excluding that mutation. -/
theorem rank_mutations_exc_aborts :
    rank_mutations_exc
        (fun i => if i = 0 then Except.error ScoringError.unavailable
                  else Except.ok 0)
        ["12A", "12C"] =
      Except.error ScoringError.unavailable := rfl

/-- C6 amended: if the scorer raises for any mutation of the library,
`rank_mutations` does not catch it — no ranked list at all is returned
(the exception propagates; there are no partial-failure semantics). -/
theorem rank_mutations_exc_error_propagates
    (score : ℕ → Except ScoringError ℚ) (mutations : List String)
    (i : ℕ) (e : ScoringError) (hi : i < mutations.length)
    (he : score i = Except.error e) :
    ∀ l, rank_mutations_exc score mutations ≠ Except.ok l := by
  intro l hl
  have h0 : score (0 + i) = Except.error e := by
    rwa [Nat.zero_add]
  cases h2 : score_all score 0 mutations with
  | error e' => rw [rank_mutations_exc, h2] at hl; exact Except.noConfusion hl
  | ok l' => exact score_all_of_error score mutations 0 i e hi h0 l' h2

/-- Concrete instance of `rank_mutations_exc_error_propagates`: the scorer
failing at index 0 of a two-element library means no ranked list is returned. -/
theorem rank_mutations_exc_error_propagates_witness :
    0 < (["12A", "12C"] : List String).length ∧
    (fun i => if i = 0 then Except.error ScoringError.unavailable
              else Except.ok (0 : ℚ)) 0 =
      Except.error ScoringError.unavailable ∧
    ∀ l, rank_mutations_exc
        (fun i => if i = 0 then Except.error ScoringError.unavailable
                  else Except.ok 0)
        ["12A", "12C"] ≠ Except.ok l :=
  ⟨by decide, rfl,
    rank_mutations_exc_error_propagates
      (fun i => if i = 0 then Except.error ScoringError.unavailable
                else Except.ok 0)
      ["12A", "12C"] 0 ScoringError.unavailable (by decide) rfl⟩

/-! ## MD simulation setup
`MDSimulationSetup` keeps a parameter dictionary (`_default_params`) and
emits one key-value parameter record per stage.  The NVT/NPT writers use
hardcoded `nsteps = 500000` and `dt = 0.002`; only the production writer
derives `nsteps = int(production_time * 1000000 / timestep)` — Python's
`int()` truncates toward zero, and Python float division by `0.0` raises
`ZeroDivisionError`. -/

/-- Python `int()` applied to a float value: truncation toward zero. -/
def pyInt (q : ℚ) : ℤ := if 0 ≤ q then ⌊q⌋ else ⌈q⌉

/-- The simulation parameter dictionary of `MDSimulationSetup`. -/
structure SimParams where
  force_field : String
  water_model : String
  box_type : String
  box_distance : ℚ
  ion_concentration : ℚ
  temperature : ℚ
  pressure : ℚ
  minimization_steps : ℤ
  equilibration_time : ℚ
  production_time : ℚ
  timestep : ℚ
  output_frequency : ℤ
deriving DecidableEq, Repr

/-- Embedding of `MDSimulationSetup._default_params` (the constructor stores
the given force field and these literal defaults). -/
def default_params (force_field : String) : SimParams where
  force_field := force_field
  water_model := "tip3p"
  box_type := "dodecahedron"
  box_distance := 1
  ion_concentration := 15/100
  temperature := 300
  pressure := 1
  minimization_steps := 50000
  equilibration_time := 1
  production_time := 100
  timestep := 2
  output_frequency := 10000

/-- The only failure the production writer can hit: Python float division
by zero (`ZeroDivisionError`).  The source defines no `InvalidTimestepError`
and checks nothing about the timestep. -/
inductive MDError where
  | zeroDivision
deriving DecidableEq, Repr

/-- The `nsteps` computation of `_write_production_mdp`:
`int((production_time * 1000000) / timestep)`. -/
def production_nsteps (p : SimParams) : Except MDError ℤ :=
  if p.timestep = 0 then Except.error MDError.zeroDivision
  else Except.ok (pyInt (p.production_time * 1000000 / p.timestep))

/-- The key-value record written by `_write_minimization_mdp`. -/
structure MinimizationMdp where
  integrator : String
  nsteps : ℤ
  emtol : ℚ
  emstep : ℚ
  nstlog : ℤ
  nstenergy : ℤ
  cutoff_scheme : String
  nstlist : ℤ
  ns_type : String
  pbc : String
  coulombtype : String
  rcoulomb : ℚ
  vdw_type : String
  rvdw : ℚ
  tcoupl : String
  pcoupl : String
deriving DecidableEq, Repr

/-- Embedding of `MDSimulationSetup._write_minimization_mdp`. -/
def write_minimization_mdp (p : SimParams) : MinimizationMdp where
  integrator := "steep"
  nsteps := p.minimization_steps
  emtol := 1000
  emstep := 1/100
  nstlog := 1000
  nstenergy := 1000
  cutoff_scheme := "Verlet"
  nstlist := 10
  ns_type := "grid"
  pbc := "xyz"
  coulombtype := "PME"
  rcoulomb := 1
  vdw_type := "Cut-off"
  rvdw := 1
  tcoupl := "no"
  pcoupl := "no"

/-- The key-value record written by `_write_nvt_mdp`. -/
structure NvtMdp where
  integrator : String
  nsteps : ℤ
  dt : ℚ
  nstlog : ℤ
  nstenergy : ℤ
  nstxout_compressed : ℤ
  cutoff_scheme : String
  nstlist : ℤ
  ns_type : String
  pbc : String
  coulombtype : String
  rcoulomb : ℚ
  vdw_type : String
  rvdw : ℚ
  tcoupl : String
  tc_grps : String
  tau_t : ℚ × ℚ
  ref_t : ℚ × ℚ
  pcoupl : String
  gen_vel : String
  gen_temp : ℚ
  gen_seed : ℤ
  constraints : String
deriving DecidableEq, Repr

/-- Embedding of `MDSimulationSetup._write_nvt_mdp`. -/
def write_nvt_mdp (p : SimParams) : NvtMdp where
  integrator := "md"
  nsteps := 500000
  dt := 2/1000
  nstlog := 5000
  nstenergy := 5000
  nstxout_compressed := 5000
  cutoff_scheme := "Verlet"
  nstlist := 10
  ns_type := "grid"
  pbc := "xyz"
  coulombtype := "PME"
  rcoulomb := 1
  vdw_type := "Cut-off"
  rvdw := 1
  tcoupl := "V-rescale"
  tc_grps := "Protein Non-Protein"
  tau_t := (1/10, 1/10)
  ref_t := (p.temperature, p.temperature)
  pcoupl := "no"
  gen_vel := "yes"
  gen_temp := p.temperature
  gen_seed := -1
  constraints := "h-bonds"

/-- The key-value record written by `_write_npt_mdp`. -/
structure NptMdp where
  integrator : String
  nsteps : ℤ
  dt : ℚ
  nstlog : ℤ
  nstenergy : ℤ
  nstxout_compressed : ℤ
  cutoff_scheme : String
  nstlist : ℤ
  ns_type : String
  pbc : String
  coulombtype : String
  rcoulomb : ℚ
  vdw_type : String
  rvdw : ℚ
  tcoupl : String
  tc_grps : String
  tau_t : ℚ × ℚ
  ref_t : ℚ × ℚ
  pcoupl : String
  pcoupltype : String
  tau_p : ℚ
  ref_p : ℚ
  compressibility : ℚ
  gen_vel : String
  constraints : String
deriving DecidableEq, Repr

/-- Embedding of `MDSimulationSetup._write_npt_mdp`. -/
def write_npt_mdp (p : SimParams) : NptMdp where
  integrator := "md"
  nsteps := 500000
  dt := 2/1000
  nstlog := 5000
  nstenergy := 5000
  nstxout_compressed := 5000
  cutoff_scheme := "Verlet"
  nstlist := 10
  ns_type := "grid"
  pbc := "xyz"
  coulombtype := "PME"
  rcoulomb := 1
  vdw_type := "Cut-off"
  rvdw := 1
  tcoupl := "V-rescale"
  tc_grps := "Protein Non-Protein"
  tau_t := (1/10, 1/10)
  ref_t := (p.temperature, p.temperature)
  pcoupl := "Parrinello-Rahman"
  pcoupltype := "isotropic"
  tau_p := 2
  ref_p := p.pressure
  compressibility := 45/1000000
  gen_vel := "no"
  constraints := "h-bonds"

/-- The key-value record written by `_write_production_mdp`. -/
structure ProductionMdp where
  integrator : String
  nsteps : ℤ
  dt : ℚ
  nstlog : ℤ
  nstenergy : ℤ
  nstxout_compressed : ℤ
  compressed_x_grps : String
  cutoff_scheme : String
  nstlist : ℤ
  ns_type : String
  pbc : String
  coulombtype : String
  rcoulomb : ℚ
  vdw_type : String
  rvdw : ℚ
  tcoupl : String
  tc_grps : String
  tau_t : ℚ × ℚ
  ref_t : ℚ × ℚ
  pcoupl : String
  pcoupltype : String
  tau_p : ℚ
  ref_p : ℚ
  compressibility : ℚ
  gen_vel : String
  constraints : String
deriving DecidableEq, Repr

/-- Embedding of `MDSimulationSetup._write_production_mdp`: the `nsteps`
division happens before the record is emitted, so a division failure
aborts the emission. -/
def write_production_mdp (p : SimParams) : Except MDError ProductionMdp :=
  match production_nsteps p with
  | Except.error e => Except.error e
  | Except.ok n => Except.ok
    { integrator := "md"
      nsteps := n
      dt := p.timestep / 1000
      nstlog := p.output_frequency
      nstenergy := p.output_frequency
      nstxout_compressed := p.output_frequency
      compressed_x_grps := "System"
      cutoff_scheme := "Verlet"
      nstlist := 10
      ns_type := "grid"
      pbc := "xyz"
      coulombtype := "PME"
      rcoulomb := 1
      vdw_type := "Cut-off"
      rvdw := 1
      tcoupl := "V-rescale"
      tc_grps := "Protein Non-Protein"
      tau_t := (1/10, 1/10)
      ref_t := (p.temperature, p.temperature)
      pcoupl := "Parrinello-Rahman"
      pcoupltype := "isotropic"
      tau_p := 2
      ref_p := p.pressure
      compressibility := 45/1000000
      gen_vel := "no"
      constraints := "h-bonds" }

theorem pyInt_of_nonneg (q : ℚ) (h : 0 ≤ q) : pyInt q = ⌊q⌋ := if_pos h

theorem production_nsteps_default :
    production_nsteps (default_params "amber99sb-ildn") =
      Except.ok 50000000 := by
  rw [production_nsteps, if_neg (by norm_num [default_params])]
  norm_num [pyInt, default_params]

/-- The parameter record exposing the truncation/rounding mismatch:
`production_time = 1` ns with `timestep = 1.5` fs. -/
def frac_params : SimParams :=
  { default_params "amber99sb-ildn" with production_time := 1, timestep := 3/2 }

/-- C3 counterexample: with `production_time = 1` ns and `timestep = 1.5` fs
the code truncates `1e6/1.5 = 666666.66…` to `666666`, while
`round(time_ns × 1e6 / timestep_fs)` is `666667`. -/
theorem production_nsteps_ne_round :
    production_nsteps frac_params = Except.ok 666666 ∧
    round (frac_params.production_time * 1000000 / frac_params.timestep) =
      666667 := by
  constructor
  · rw [production_nsteps, if_neg (by norm_num [frac_params, default_params])]
    norm_num [pyInt, frac_params, default_params]
  · norm_num [frac_params, default_params, round_eq]

/-- C3 amended: for positive production time and timestep the production
step count is the truncation `⌊time_ns × 1e6 / timestep_fs⌋` (Python `int()`),
not the rounding; on the canonical options (100 ns production, 2 fs timestep)
the two agree and the emitted `nsteps` is 50,000,000. -/
theorem production_nsteps_trunc (p : SimParams)
    (ht : 0 < p.timestep) (hp : 0 < p.production_time) :
    production_nsteps p =
      Except.ok ⌊p.production_time * 1000000 / p.timestep⌋ ∧
    production_nsteps (default_params "amber99sb-ildn") =
      Except.ok 50000000 := by
  constructor
  · rw [production_nsteps, if_neg (ne_of_gt ht)]
    have h0 : (0 : ℚ) ≤ p.production_time * 1000000 / p.timestep :=
      div_nonneg (mul_nonneg hp.le (by norm_num)) ht.le
    rw [pyInt_of_nonneg _ h0]
  · exact production_nsteps_default

/-- Concrete instance of `production_nsteps_trunc` at the default options. -/
theorem production_nsteps_trunc_witness :
    0 < (default_params "amber99sb-ildn").timestep ∧
    0 < (default_params "amber99sb-ildn").production_time ∧
    (production_nsteps (default_params "amber99sb-ildn") =
      Except.ok ⌊(default_params "amber99sb-ildn").production_time * 1000000 /
        (default_params "amber99sb-ildn").timestep⌋ ∧
    production_nsteps (default_params "amber99sb-ildn") =
      Except.ok 50000000) :=
  ⟨by norm_num [default_params], by norm_num [default_params],
    production_nsteps_trunc (default_params "amber99sb-ildn")
      (by norm_num [default_params]) (by norm_num [default_params])⟩

/-- The parameter record with a negative timestep. -/
def neg_timestep_params : SimParams :=
  { default_params "amber99sb-ildn" with timestep := -2 }

/-- C8 counterexample: with `timestep = -2` fs the production writer raises
nothing — it divides by the negative timestep and emits `nsteps = -50000000`
(the source defines no `InvalidTimestepError` and never checks the sign). -/
theorem production_nsteps_negative_timestep :
    production_nsteps neg_timestep_params = Except.ok (-50000000) := by
  rw [production_nsteps, if_neg (by norm_num [neg_timestep_params, default_params])]
  have h : neg_timestep_params.production_time * 1000000 /
      neg_timestep_params.timestep = ((-50000000 : ℤ) : ℚ) := by
    norm_num [neg_timestep_params, default_params]
  rw [pyInt, h, if_neg (by norm_num)]
  rw [Int.ceil_intCast]

/-- C8 amended: the production writer validates nothing about the timestep:
for any nonzero timestep (negative included) it divides and truncates, and
only for `timestep = 0` does it fail — with Python's `ZeroDivisionError`,
not an `InvalidTimestepError`. -/
theorem production_nsteps_no_validation (p : SimParams) :
    (p.timestep = 0 →
      production_nsteps p = Except.error MDError.zeroDivision) ∧
    (p.timestep ≠ 0 →
      production_nsteps p =
        Except.ok (pyInt (p.production_time * 1000000 / p.timestep))) :=
  ⟨fun h => by rw [production_nsteps, if_pos h],
   fun h => by rw [production_nsteps, if_neg h]⟩

/-- Concrete instance of `production_nsteps_no_validation` at a negative
timestep. -/
theorem production_nsteps_no_validation_witness :
    neg_timestep_params.timestep ≠ 0 ∧
    production_nsteps neg_timestep_params =
      Except.ok (pyInt (neg_timestep_params.production_time * 1000000 /
        neg_timestep_params.timestep)) :=
  ⟨by norm_num [neg_timestep_params, default_params],
    (production_nsteps_no_validation neg_timestep_params).2
      (by norm_num [neg_timestep_params, default_params])⟩

/-- C4: for every options record, the NVT, NPT and (when emitted) production
records all carry `ref_t` equal to the one reference temperature (written
twice, once per coupling group), the production record has `gen_vel = "no"`,
and the minimization record has `tcoupl = "no"` and `pcoupl = "no"`. -/
theorem mdp_temperature_consistency (p : SimParams) (r : ProductionMdp)
    (h : write_production_mdp p = Except.ok r) :
    (write_nvt_mdp p).ref_t = (p.temperature, p.temperature) ∧
    (write_npt_mdp p).ref_t = (p.temperature, p.temperature) ∧
    r.ref_t = (p.temperature, p.temperature) ∧
    r.gen_vel = "no" ∧
    (write_minimization_mdp p).tcoupl = "no" ∧
    (write_minimization_mdp p).pcoupl = "no" := by
  refine ⟨rfl, rfl, ?_, ?_, rfl, rfl⟩ <;>
  · unfold write_production_mdp at h
    cases hn : production_nsteps p with
    | error e => rw [hn] at h; exact Except.noConfusion h
    | ok n =>
      rw [hn] at h
      cases Except.ok.inj h
      rfl

/-- The production record emitted for the default options. -/
def default_production_mdp : ProductionMdp where
  integrator := "md"
  nsteps := 50000000
  dt := 2/1000
  nstlog := 10000
  nstenergy := 10000
  nstxout_compressed := 10000
  compressed_x_grps := "System"
  cutoff_scheme := "Verlet"
  nstlist := 10
  ns_type := "grid"
  pbc := "xyz"
  coulombtype := "PME"
  rcoulomb := 1
  vdw_type := "Cut-off"
  rvdw := 1
  tcoupl := "V-rescale"
  tc_grps := "Protein Non-Protein"
  tau_t := (1/10, 1/10)
  ref_t := (300, 300)
  pcoupl := "Parrinello-Rahman"
  pcoupltype := "isotropic"
  tau_p := 2
  ref_p := 1
  compressibility := 45/1000000
  gen_vel := "no"
  constraints := "h-bonds"

theorem write_production_mdp_default :
    write_production_mdp (default_params "amber99sb-ildn") =
      Except.ok default_production_mdp := by
  unfold write_production_mdp
  rw [production_nsteps_default]
  rfl

/-- Concrete instance of `mdp_temperature_consistency` at the default
options. -/
theorem mdp_temperature_consistency_witness :
    write_production_mdp (default_params "amber99sb-ildn") =
      Except.ok default_production_mdp ∧
    ((write_nvt_mdp (default_params "amber99sb-ildn")).ref_t = (300, 300) ∧
    (write_npt_mdp (default_params "amber99sb-ildn")).ref_t = (300, 300) ∧
    default_production_mdp.ref_t = (300, 300) ∧
    default_production_mdp.gen_vel = "no" ∧
    (write_minimization_mdp (default_params "amber99sb-ildn")).tcoupl = "no" ∧
    (write_minimization_mdp (default_params "amber99sb-ildn")).pcoupl = "no") :=
  ⟨write_production_mdp_default,
    mdp_temperature_consistency (default_params "amber99sb-ildn")
      default_production_mdp write_production_mdp_default⟩

/-- C9: the NVT and NPT records always carry the hardcoded `nsteps = 500000`,
whatever `equilibration_time` and `timestep` the options hold — the
equilibration duration option never reaches the NVT/NPT step count. -/
theorem equilibration_nsteps_constant (p : SimParams) :
    (write_nvt_mdp p).nsteps = 500000 ∧ (write_npt_mdp p).nsteps = 500000 :=
  ⟨rfl, rfl⟩

/-! ## Aliphatic index
`ProteinDescriptorCalculator._calculate_aliphatic_index` prints the formula
`(Ala + 2.9*Val + 3.9*(Ile + Leu)) / length * 100` in its own output and
then returns `None`: it takes no sequence and computes nothing. -/

/-- Embedding of `_calculate_aliphatic_index`: the method body ends in
`return None` with no computation, so its value is the constant `none`. -/
def calculate_aliphatic_index : Option ℚ := none

/-- Modelled from the spec: the aliphatic-index value the spec (§4.1) and
the method's own documented formula prescribe for a sequence —
`100 × (Ala% + 2.9×Val% + 3.9×(Ile% + Leu%))`, each percentage being the
residue count divided by the sequence length, undefined on length 0. -/
def spec_aliphatic_index (seq : List Char) : Option ℚ :=
  if seq.length = 0 then none
  else
    some (100 * ((seq.count 'A' : ℚ) / seq.length
      + 29/10 * ((seq.count 'V' : ℚ) / seq.length)
      + 39/10 * (((seq.count 'I' : ℚ) + (seq.count 'L' : ℚ)) / seq.length)))

/-- C5 (code bug): the source's `_calculate_aliphatic_index` ignores the
sequence and returns `None`, while the formula its own docstring documents —
and the spec — yields 234 for the sequence "AVLIG". -/
theorem aliphatic_index_stubbed :
    calculate_aliphatic_index = none ∧
    calculate_aliphatic_index ≠ spec_aliphatic_index ("AVLIG".toList) ∧
    spec_aliphatic_index ("AVLIG".toList) = some 234 := by
  have h : "AVLIG".toList = ['A', 'V', 'L', 'I', 'G'] := rfl
  have hA : List.count 'A' ['A', 'V', 'L', 'I', 'G'] = 1 := by decide
  have hV : List.count 'V' ['A', 'V', 'L', 'I', 'G'] = 1 := by decide
  have hI : List.count 'I' ['A', 'V', 'L', 'I', 'G'] = 1 := by decide
  have hL : List.count 'L' ['A', 'V', 'L', 'I', 'G'] = 1 := by decide
  have hspec : spec_aliphatic_index ("AVLIG".toList) = some 234 := by
    rw [spec_aliphatic_index, h]
    norm_num [hA, hV, hI, hL]
  refine ⟨rfl, ?_, hspec⟩
  rw [hspec]
  exact fun hcontra => Option.noConfusion hcontra
